import Mathlib

/-!
Verification of the HyperCLOVA X Dify plugin adapter
(`src/models/llm/llm.py`, class `HyperCLOVAXLargeLanguageModel`).

The adapter operates on plain Python dictionaries mapping string keys to
values.  We embed a dictionary as a function `String → Option PyVal`
(`Option.none` means the key is absent; `some PyVal.none` means the key is
present with Python's `None` value, as produced by
`credentials["function_calling_type"] = None`).
-/

/-- A Python value as it occurs in the credentials / model-parameters
mappings of this adapter: strings, integers, or the `None` object. -/
inductive PyVal where
  | str (s : String)
  | int (n : Int)
  | none
deriving DecidableEq, Repr

/-- A Python dictionary with string keys.  `d k = Option.none` means the
key `k` is absent; `d k = some v` means it is present with value `v`. -/
abbrev Dict := String → Option PyVal

/-- `d[k] = v` : dictionary item assignment. -/
def Dict.set (d : Dict) (k : String) (v : PyVal) : Dict :=
  fun q => if q = k then some v else d q

/-- `d.pop(k)` as far as the remaining dictionary is concerned: the key
`k` is removed. -/
def Dict.pop (d : Dict) (k : String) : Dict :=
  fun q => if q = k then Option.none else d q

/-- The empty dictionary `{}`. -/
def Dict.empty : Dict := fun _ => Option.none

theorem Dict.set_same (d : Dict) (k : String) (v : PyVal) : d.set k v k = some v := by
  simp [Dict.set]

theorem Dict.set_other (d : Dict) (k q : String) (v : PyVal) (h : q ≠ k) :
    d.set k v q = d q := by
  simp [Dict.set, h]

theorem Dict.pop_same (d : Dict) (k : String) : d.pop k k = Option.none := by
  simp [Dict.pop]

theorem Dict.pop_other (d : Dict) (k q : String) (h : q ≠ k) : d.pop k q = d q := by
  simp [Dict.pop, h]

/-- A prompt message (`dify_plugin.entities.model.message.PromptMessage`):
opaque payload forwarded unchanged by this adapter. -/
structure PromptMessage where
  payload : String
deriving DecidableEq, Repr

/-- A tool description (`PromptMessageTool`): opaque payload forwarded
unchanged by this adapter. -/
structure PromptMessageTool where
  payload : String
deriving DecidableEq, Repr

/-- The arguments that `HyperCLOVAXLargeLanguageModel._invoke` hands to the
external base client's invocation entry point
(`OAICompatLargeLanguageModel._invoke`, positional signature
model, credentials, prompt_messages, model_parameters, tools, stop,
stream, user — the last defaulting to `None` when not supplied). -/
structure BaseInvokeArgs where
  model : String
  credentials : Dict
  prompt_messages : List PromptMessage
  model_parameters : Dict
  tools : Option (List PromptMessageTool)
  stop : Option (List String)
  stream : Bool
  user : Option String

/-- The arguments that `validate_credentials` hands to the external base
client's validation entry point. -/
structure BaseValidateArgs where
  model : String
  credentials : Dict

namespace HyperCLOVAXLargeLanguageModel

/-- `HyperCLOVAXLargeLanguageModel._add_custom_parameters` (llm.py lines
35-61): sets the endpoint URL, the chat mode (`LLMMode.CHAT.value`, the
string "chat"), the function-calling flags by membership of `model` in the
list `["HCX-007", "HCX-005", "HCX-DASH-002"]`, and the vision flag by
`model == "HCX-005"`.  The Python function mutates `credentials` in place;
we return the mutated dictionary. -/
def _add_custom_parameters (credentials : Dict) (model : String) : Dict :=
  let c := credentials.set "endpoint_url"
      (PyVal.str "https://clovastudio.stream.ntruss.com/v1/openai")
  let c := c.set "mode" (PyVal.str "chat")
  let c :=
    if model ∈ (["HCX-007", "HCX-005", "HCX-DASH-002"] : List String) then
      (c.set "function_calling_type" (PyVal.str "tool_call")).set
        "stream_function_calling" (PyVal.str "support")
    else
      (c.set "function_calling_type" PyVal.none).set
        "stream_function_calling" (PyVal.str "no_support")
  if model = "HCX-005" then
    c.set "vision_support" (PyVal.str "support")
  else
    c.set "vision_support" (PyVal.str "no_support")

/-- `HyperCLOVAXLargeLanguageModel._update_model_parameters` (llm.py lines
63-79): for model "HCX-007", default `reasoning_effort` to "medium" when
absent, and rename a present `max_tokens` key to `max_completion_tokens`
(via `pop` then item assignment).  Mutates in place; we return the mutated
dictionary. -/
def _update_model_parameters (model : String) (model_parameters : Dict) : Dict :=
  let p :=
    if model = "HCX-007" ∧ model_parameters "reasoning_effort" = Option.none then
      model_parameters.set "reasoning_effort" (PyVal.str "medium")
    else
      model_parameters
  match p "max_tokens" with
  | some v =>
      if model = "HCX-007" then
        (p.pop "max_tokens").set "max_completion_tokens" v
      else
        p
  | Option.none => p

/-- `HyperCLOVAXLargeLanguageModel._invoke` (llm.py lines 10-29): augments
the credentials with `_add_custom_parameters`, then calls
`super()._invoke(model, credentials, prompt_messages, model_parameters,
tools, stop, stream)`.  We model the call by the argument record the base
client receives; the `user` parameter of `_invoke` is not forwarded (the
`super()._invoke` call passes only seven arguments), so the base client
sees its default `None` for `user`. -/
def _invoke (model : String) (credentials : Dict)
    (prompt_messages : List PromptMessage) (model_parameters : Dict)
    (tools : Option (List PromptMessageTool)) (stop : Option (List String))
    (stream : Bool) (user : Option String) : BaseInvokeArgs :=
  let credentials := _add_custom_parameters credentials model
  ⟨model, credentials, prompt_messages, model_parameters, tools, stop, stream,
    Option.none⟩

/-- `HyperCLOVAXLargeLanguageModel.validate_credentials` (llm.py lines
31-33): augments the credentials with `_add_custom_parameters`, then calls
`super().validate_credentials(model, credentials)`.  We model the call by
the argument record the base client receives. -/
def validate_credentials (model : String) (credentials : Dict) : BaseValidateArgs :=
  ⟨model, _add_custom_parameters credentials model⟩

end HyperCLOVAXLargeLanguageModel

open HyperCLOVAXLargeLanguageModel

/-! ### Lookup lemmas for the augmented credentials -/

theorem add_custom_lookup_endpoint (c : Dict) (m : String) :
    (_add_custom_parameters c m) "endpoint_url" =
      some (PyVal.str "https://clovastudio.stream.ntruss.com/v1/openai") := by
  unfold _add_custom_parameters
  by_cases hm : m ∈ (["HCX-007", "HCX-005", "HCX-DASH-002"] : List String) <;>
    by_cases h5 : m = "HCX-005" <;>
      simp [hm, h5, Dict.set]

theorem add_custom_lookup_mode (c : Dict) (m : String) :
    (_add_custom_parameters c m) "mode" = some (PyVal.str "chat") := by
  unfold _add_custom_parameters
  by_cases hm : m ∈ (["HCX-007", "HCX-005", "HCX-DASH-002"] : List String) <;>
    by_cases h5 : m = "HCX-005" <;>
      simp [hm, h5, Dict.set]

theorem add_custom_lookup_fct (c : Dict) (m : String) :
    (_add_custom_parameters c m) "function_calling_type" =
      if m ∈ (["HCX-007", "HCX-005", "HCX-DASH-002"] : List String) then
        some (PyVal.str "tool_call")
      else
        some PyVal.none := by
  unfold _add_custom_parameters
  by_cases hm : m ∈ (["HCX-007", "HCX-005", "HCX-DASH-002"] : List String) <;>
    by_cases h5 : m = "HCX-005" <;>
      simp [hm, h5, Dict.set]

theorem add_custom_lookup_sfc (c : Dict) (m : String) :
    (_add_custom_parameters c m) "stream_function_calling" =
      if m ∈ (["HCX-007", "HCX-005", "HCX-DASH-002"] : List String) then
        some (PyVal.str "support")
      else
        some (PyVal.str "no_support") := by
  unfold _add_custom_parameters
  by_cases hm : m ∈ (["HCX-007", "HCX-005", "HCX-DASH-002"] : List String) <;>
    by_cases h5 : m = "HCX-005" <;>
      simp [hm, h5, Dict.set]

theorem add_custom_lookup_vision (c : Dict) (m : String) :
    (_add_custom_parameters c m) "vision_support" =
      if m = "HCX-005" then some (PyVal.str "support")
      else some (PyVal.str "no_support") := by
  unfold _add_custom_parameters
  by_cases hm : m ∈ (["HCX-007", "HCX-005", "HCX-DASH-002"] : List String) <;>
    by_cases h5 : m = "HCX-005" <;>
      simp [hm, h5, Dict.set]

theorem add_custom_lookup_other (c : Dict) (m k : String)
    (h1 : k ≠ "endpoint_url") (h2 : k ≠ "mode")
    (h3 : k ≠ "function_calling_type") (h4 : k ≠ "stream_function_calling")
    (h5 : k ≠ "vision_support") :
    (_add_custom_parameters c m) k = c k := by
  unfold _add_custom_parameters
  by_cases hm : m ∈ (["HCX-007", "HCX-005", "HCX-DASH-002"] : List String) <;>
    by_cases hv : m = "HCX-005" <;>
      simp [hm, hv, Dict.set, h1, h2, h3, h4, h5]

/-! ### Claim theorems: credential augmentation -/

/-- C2: for every credentials mapping and model identifier, augmentation
sets `function_calling_type` to "tool_call" and `stream_function_calling`
to "support" exactly when the model is one of "HCX-007", "HCX-005",
"HCX-DASH-002", and otherwise sets `function_calling_type` to the Python
`None` value and `stream_function_calling` to "no_support". -/
theorem C2_function_calling_flags (c : Dict) (m : String) :
    ((m = "HCX-007" ∨ m = "HCX-005" ∨ m = "HCX-DASH-002") →
      (_add_custom_parameters c m) "function_calling_type" =
          some (PyVal.str "tool_call") ∧
        (_add_custom_parameters c m) "stream_function_calling" =
          some (PyVal.str "support")) ∧
    (¬ (m = "HCX-007" ∨ m = "HCX-005" ∨ m = "HCX-DASH-002") →
      (_add_custom_parameters c m) "function_calling_type" = some PyVal.none ∧
        (_add_custom_parameters c m) "stream_function_calling" =
          some (PyVal.str "no_support")) := by
  have hmem : (m ∈ (["HCX-007", "HCX-005", "HCX-DASH-002"] : List String)) ↔
      (m = "HCX-007" ∨ m = "HCX-005" ∨ m = "HCX-DASH-002") := by
    simp
  constructor
  · intro h
    rw [add_custom_lookup_fct, add_custom_lookup_sfc, if_pos (hmem.mpr h),
      if_pos (hmem.mpr h)]
    exact ⟨rfl, rfl⟩
  · intro h
    rw [add_custom_lookup_fct, add_custom_lookup_sfc,
      if_neg (fun hx => h (hmem.mp hx)), if_neg (fun hx => h (hmem.mp hx))]
    exact ⟨rfl, rfl⟩

/-- C2 witness: concrete instances on both sides of the membership test. -/
theorem C2_function_calling_flags_witness :
    (_add_custom_parameters Dict.empty "HCX-005") "function_calling_type" =
        some (PyVal.str "tool_call") ∧
      (_add_custom_parameters Dict.empty "HCX-003") "stream_function_calling" =
        some (PyVal.str "no_support") :=
  ⟨((C2_function_calling_flags Dict.empty "HCX-005").1 (Or.inr (Or.inl rfl))).1,
   ((C2_function_calling_flags Dict.empty "HCX-003").2 (by decide)).2⟩

/-- C3: augmentation sets `vision_support` to "support" iff the model is
"HCX-005", and to "no_support" for every other model identifier. -/
theorem C3_vision_support (c : Dict) (m : String) :
    ((_add_custom_parameters c m) "vision_support" = some (PyVal.str "support")
        ↔ m = "HCX-005") ∧
      (m ≠ "HCX-005" →
        (_add_custom_parameters c m) "vision_support" =
          some (PyVal.str "no_support")) := by
  rw [add_custom_lookup_vision]
  by_cases h : m = "HCX-005" <;> simp [h]

/-- C3 witness: concrete instances on both sides of the vision test. -/
theorem C3_vision_support_witness :
    (_add_custom_parameters Dict.empty "HCX-005") "vision_support" =
        some (PyVal.str "support") ∧
      (_add_custom_parameters Dict.empty "HCX-007") "vision_support" =
        some (PyVal.str "no_support") :=
  ⟨(C3_vision_support Dict.empty "HCX-005").1.mpr rfl,
   (C3_vision_support Dict.empty "HCX-007").2 (by decide)⟩

/-- C7: after augmentation all five keys `endpoint_url`, `mode`,
`function_calling_type`, `stream_function_calling`, `vision_support` are
present, with `endpoint_url` the fixed vendor URL and `mode` equal to
"chat", independent of the model identifier. -/
theorem C7_invariant_keys (c : Dict) (m : String) :
    (_add_custom_parameters c m) "endpoint_url" =
        some (PyVal.str "https://clovastudio.stream.ntruss.com/v1/openai") ∧
      (_add_custom_parameters c m) "mode" = some (PyVal.str "chat") ∧
      ((_add_custom_parameters c m) "function_calling_type").isSome ∧
      ((_add_custom_parameters c m) "stream_function_calling").isSome ∧
      ((_add_custom_parameters c m) "vision_support").isSome := by
  refine ⟨add_custom_lookup_endpoint c m, add_custom_lookup_mode c m, ?_, ?_, ?_⟩
  · rw [add_custom_lookup_fct]
    by_cases hm : m ∈ (["HCX-007", "HCX-005", "HCX-DASH-002"] : List String) <;>
      simp [hm]
  · rw [add_custom_lookup_sfc]
    by_cases hm : m ∈ (["HCX-007", "HCX-005", "HCX-DASH-002"] : List String) <;>
      simp [hm]
  · rw [add_custom_lookup_vision]
    by_cases h5 : m = "HCX-005" <;> simp [h5]

/-- C9: augmentation modifies only the five keys `endpoint_url`, `mode`,
`function_calling_type`, `stream_function_calling`, `vision_support`;
every other key keeps its original binding (present keys keep their value,
absent keys stay absent). -/
theorem C9_frame (c : Dict) (m k : String)
    (h : k ≠ "endpoint_url" ∧ k ≠ "mode" ∧ k ≠ "function_calling_type" ∧
      k ≠ "stream_function_calling" ∧ k ≠ "vision_support") :
    (_add_custom_parameters c m) k = c k :=
  add_custom_lookup_other c m k h.1 h.2.1 h.2.2.1 h.2.2.2.1 h.2.2.2.2

/-- C9 witness: an unrelated credential key keeps its value. -/
theorem C9_frame_witness :
    (_add_custom_parameters (Dict.empty.set "api_key" (PyVal.str "secret"))
        "HCX-005") "api_key" = some (PyVal.str "secret") :=
  (C9_frame (Dict.empty.set "api_key" (PyVal.str "secret")) "HCX-005" "api_key"
      (by decide)).trans (by simp [Dict.set])

/-- C8: starting from equal credentials mappings, `validate_credentials`
and `_invoke` hand the external base client credentials that agree on
`endpoint_url`, `mode`, and the three capability flags (they apply the
same augmentation). -/
theorem C8_same_augmentation (m : String) (c : Dict) (pm : List PromptMessage)
    (mp : Dict) (tools : Option (List PromptMessageTool))
    (stop : Option (List String)) (stream : Bool) (user : Option String) :
    (HyperCLOVAXLargeLanguageModel.validate_credentials m c).credentials
        "endpoint_url" =
      (HyperCLOVAXLargeLanguageModel._invoke m c pm mp tools stop stream
        user).credentials "endpoint_url" ∧
    (HyperCLOVAXLargeLanguageModel.validate_credentials m c).credentials "mode" =
      (HyperCLOVAXLargeLanguageModel._invoke m c pm mp tools stop stream
        user).credentials "mode" ∧
    (HyperCLOVAXLargeLanguageModel.validate_credentials m c).credentials
        "function_calling_type" =
      (HyperCLOVAXLargeLanguageModel._invoke m c pm mp tools stop stream
        user).credentials "function_calling_type" ∧
    (HyperCLOVAXLargeLanguageModel.validate_credentials m c).credentials
        "stream_function_calling" =
      (HyperCLOVAXLargeLanguageModel._invoke m c pm mp tools stop stream
        user).credentials "stream_function_calling" ∧
    (HyperCLOVAXLargeLanguageModel.validate_credentials m c).credentials
        "vision_support" =
      (HyperCLOVAXLargeLanguageModel._invoke m c pm mp tools stop stream
        user).credentials "vision_support" :=
  ⟨rfl, rfl, rfl, rfl, rfl⟩

/-! ### Claim theorems: invocation facade -/

/-- C1 counterexample: the claim that `_invoke` passes the user identifier
through unchanged is false.  At a concrete input with user "alice", the
argument record handed to the base client carries no user (the
`super()._invoke` call in llm.py passes only seven positional arguments,
omitting `user`). -/
theorem C1_counterexample :
    ¬ ((HyperCLOVAXLargeLanguageModel._invoke "HCX-005" Dict.empty []
        Dict.empty Option.none Option.none true (some "alice")).user =
      some "alice") := by
  decide

/-- C1 (amended): `_invoke` augments the credentials with
`_add_custom_parameters` and delegates to the base client's invocation
entry point with the prompt messages, model parameters, tools, stop
sequences and streaming flag passed through unchanged; the user identifier
is NOT forwarded — the base client receives its default `None` in place of
the caller's user argument. -/
theorem C1_invoke_delegation (m : String) (c : Dict) (pm : List PromptMessage)
    (mp : Dict) (tools : Option (List PromptMessageTool))
    (stop : Option (List String)) (stream : Bool) (user : Option String) :
    (HyperCLOVAXLargeLanguageModel._invoke m c pm mp tools stop stream
        user).model = m ∧
    (HyperCLOVAXLargeLanguageModel._invoke m c pm mp tools stop stream
        user).credentials = _add_custom_parameters c m ∧
    (HyperCLOVAXLargeLanguageModel._invoke m c pm mp tools stop stream
        user).prompt_messages = pm ∧
    (HyperCLOVAXLargeLanguageModel._invoke m c pm mp tools stop stream
        user).model_parameters = mp ∧
    (HyperCLOVAXLargeLanguageModel._invoke m c pm mp tools stop stream
        user).tools = tools ∧
    (HyperCLOVAXLargeLanguageModel._invoke m c pm mp tools stop stream
        user).stop = stop ∧
    (HyperCLOVAXLargeLanguageModel._invoke m c pm mp tools stop stream
        user).stream = stream ∧
    (HyperCLOVAXLargeLanguageModel._invoke m c pm mp tools stop stream
        user).user = Option.none :=
  ⟨rfl, rfl, rfl, rfl, rfl, rfl, rfl, rfl⟩

/-! ### Claim theorems: parameter mapper -/

/-- C4: for any model identifier other than "HCX-007",
`_update_model_parameters` is the identity on the parameters mapping. -/
theorem C4_identity_other_models (m : String) (p : Dict) (h : m ≠ "HCX-007") :
    _update_model_parameters m p = p := by
  unfold _update_model_parameters
  simp only [h, false_and, if_false]
  cases hp : p "max_tokens" with
  | none => rfl
  | some v => simp [h]

/-- C4 witness: identity at model "HCX-005" on a mapping holding
`max_tokens`. -/
theorem C4_identity_other_models_witness :
    _update_model_parameters "HCX-005" (Dict.empty.set "max_tokens" (PyVal.int 256)) =
      Dict.empty.set "max_tokens" (PyVal.int 256) :=
  C4_identity_other_models "HCX-005" (Dict.empty.set "max_tokens" (PyVal.int 256))
    (by decide)

/-- C5: for model "HCX-007", `_update_model_parameters` inserts
`reasoning_effort = "medium"` when the key is absent, and never overwrites
a caller-supplied `reasoning_effort` value. -/
theorem C5_reasoning_effort_default (p : Dict) :
    (p "reasoning_effort" = Option.none →
      (_update_model_parameters "HCX-007" p) "reasoning_effort" =
        some (PyVal.str "medium")) ∧
    (∀ v, p "reasoning_effort" = some v →
      (_update_model_parameters "HCX-007" p) "reasoning_effort" = some v) := by
  unfold _update_model_parameters
  constructor
  · intro h
    simp only [h, and_true, if_pos rfl, if_true]
    cases hp : Dict.set p "reasoning_effort" (PyVal.str "medium") "max_tokens" with
    | none => simp [Dict.set]
    | some v => simp [Dict.set, Dict.pop]
  · intro v h
    simp only [h, and_false, if_false, reduceCtorEq]
    cases hp : p "max_tokens" with
    | none => exact h
    | some w => simpa [Dict.set, Dict.pop] using h

/-- C5 witness: default inserted on the empty mapping; caller value "high"
preserved. -/
theorem C5_reasoning_effort_default_witness :
    (_update_model_parameters "HCX-007" Dict.empty) "reasoning_effort" =
        some (PyVal.str "medium") ∧
      (_update_model_parameters "HCX-007"
          (Dict.empty.set "reasoning_effort" (PyVal.str "high")))
        "reasoning_effort" = some (PyVal.str "high") :=
  ⟨(C5_reasoning_effort_default Dict.empty).1 rfl,
   (C5_reasoning_effort_default
      (Dict.empty.set "reasoning_effort" (PyVal.str "high"))).2
    (PyVal.str "high") (by simp [Dict.set])⟩

/-- Shared lemma: for model "HCX-007" and a mapping containing
`max_tokens`, the mapper removes `max_tokens` and stores its value under
`max_completion_tokens`. -/
theorem update_hcx007_max_tokens (p : Dict) (v : PyVal)
    (h : p "max_tokens" = some v) :
    (_update_model_parameters "HCX-007" p) "max_tokens" = Option.none ∧
      (_update_model_parameters "HCX-007" p) "max_completion_tokens" = some v := by
  unfold _update_model_parameters
  by_cases hre : p "reasoning_effort" = Option.none
  · simp only [hre, and_true, if_pos rfl, if_true]
    have hp : Dict.set p "reasoning_effort" (PyVal.str "medium") "max_tokens" =
        some v := by
      rw [Dict.set_other p "reasoning_effort" "max_tokens" (PyVal.str "medium")
        (by decide)]
      exact h
    simp [h, hp, Dict.set, Dict.pop]
  · simp only [hre, and_false, if_false]
    simp [h, Dict.set, Dict.pop]

/-- C6: for model "HCX-007" and a mapping containing `max_tokens`, the
mapper removes `max_tokens` and stores its exact original value under
`max_completion_tokens`. -/
theorem C6_max_tokens_rename (p : Dict) (v : PyVal) (h : p "max_tokens" = some v) :
    (_update_model_parameters "HCX-007" p) "max_tokens" = Option.none ∧
      (_update_model_parameters "HCX-007" p) "max_completion_tokens" = some v :=
  update_hcx007_max_tokens p v h

/-- C6 witness: `{max_tokens: 256}` becomes a mapping with `max_tokens`
absent and `max_completion_tokens = 256`. -/
theorem C6_max_tokens_rename_witness :
    (_update_model_parameters "HCX-007" (Dict.empty.set "max_tokens" (PyVal.int 256)))
        "max_tokens" = Option.none ∧
      (_update_model_parameters "HCX-007"
          (Dict.empty.set "max_tokens" (PyVal.int 256)))
        "max_completion_tokens" = some (PyVal.int 256) :=
  C6_max_tokens_rename (Dict.empty.set "max_tokens" (PyVal.int 256))
    (PyVal.int 256) (by simp [Dict.set])

/-- C10: for model "HCX-007", when the input mapping contains both
`max_tokens` and a pre-existing `max_completion_tokens`, the mapper
overwrites `max_completion_tokens` with the `max_tokens` value. -/
theorem C10_overwrite_max_completion (p : Dict) (v w : PyVal)
    (hv : p "max_tokens" = some v) (hw : p "max_completion_tokens" = some w) :
    (_update_model_parameters "HCX-007" p) "max_completion_tokens" = some v :=
  (update_hcx007_max_tokens p v hv).2

/-- C10 witness: with `max_tokens = 256` and `max_completion_tokens = 999`,
the result holds `max_completion_tokens = 256`. -/
theorem C10_overwrite_max_completion_witness :
    (_update_model_parameters "HCX-007"
        ((Dict.empty.set "max_completion_tokens" (PyVal.int 999)).set
          "max_tokens" (PyVal.int 256)))
      "max_completion_tokens" = some (PyVal.int 256) :=
  C10_overwrite_max_completion
    ((Dict.empty.set "max_completion_tokens" (PyVal.int 999)).set
      "max_tokens" (PyVal.int 256))
    (PyVal.int 256) (PyVal.int 999) (by simp [Dict.set]) (by simp [Dict.set])
